import Mathlib

/-!
Verification of the DLHub tutorial notebooks (`dlhub_tutorials`).

The repository consists of two Jupyter notebooks:
* a Keras notebook training a small MNIST convnet and publishing it, and
* a scikit-learn notebook describing the Iris dataset, training an SVC,
  and publishing it.

We give a shallow embedding: each notebook is transcribed, statement by
statement, into a small Python-subset AST (`PyExpr`, `PyStmt`, `Cell`), and the
claims about the notebooks are settled as decidable properties of the
transcription.  The slicing and reshape claims additionally use executable
models of the relevant Python/numpy semantics (`pySliceUpToLast`,
`pySliceLastOnly`, `pySliceTo`, the reshape shape functions).
-/

/-- Expressions of the Python subset used by the notebooks.

`kw n v` is a keyword argument `n=v` occurring in an argument list.
`sliceTo e h` is `e[:h]`; `sliceUpToLast e` is `e[:-1]`; `sliceLastOnly e`
is `e[-1:]`; `sliceColsUpToLast e` is `e[:, :-1]`; `sliceLastColVals e` is
`e[:, -1]`.  Non-integer numeric literals are kept as their source text in
`numL`. -/
inductive PyExpr where
  | var (name : String)
  | strL (s : String)
  | intL (n : Int)
  | numL (s : String)
  | listL (elems : List PyExpr)
  | tupleL (elems : List PyExpr)
  | attr (obj : PyExpr) (field : String)
  | call (fn : PyExpr) (args : List PyExpr)
  | kw (name : String) (value : PyExpr)
  | subscript (obj : PyExpr) (index : PyExpr)
  | sliceTo (obj : PyExpr) (hi : PyExpr)
  | sliceUpToLast (obj : PyExpr)
  | sliceLastOnly (obj : PyExpr)
  | sliceColsUpToLast (obj : PyExpr)
  | sliceLastColVals (obj : PyExpr)
  | binop (op : String) (lhs rhs : PyExpr)

/-- Statements of the Python subset used by the notebooks.

`pyImport m a` is `import m` (or `import m as a`); `pyFrom m ns` is
`from m import ns...`; `assignTuple` is `t1, t2 = v1, v2`; `assignPairs` is
the nested unpacking `(t1, t2), (t3, t4) = value`; `assignItem` is a
subscript assignment `e[...] = value`; `augDiv t v` is `t /= v`;
`withOpen f m b body` is `with open(f, m) as b: body`.  `tryExcept` and
`classDef` are part of the subset so that their absence from the notebooks is
expressible; neither occurs in the transcriptions. -/
inductive PyStmt where
  | pyImport (module : String) (asName : Option String)
  | pyFrom (module : String) (names : List String)
  | assign (target : String) (value : PyExpr)
  | assignTuple (t1 t2 : String) (v1 v2 : PyExpr)
  | assignPairs (t1 t2 t3 t4 : String) (value : PyExpr)
  | assignItem (target : PyExpr) (value : PyExpr)
  | augDiv (target : String) (value : PyExpr)
  | exprStmt (e : PyExpr)
  | ifElse (cond : PyExpr) (thn els : List PyStmt)
  | withOpen (file mode : PyExpr) (binder : String) (body : List PyStmt)
  | tryExcept (body handlers : List PyStmt)
  | classDef (name : String) (body : List PyStmt)

/-- A notebook cell: markdown prose (content elided, no claim concerns it) or a
code cell with its statements. -/
inductive Cell where
  | markdown
  | code (stmts : List PyStmt)

/-- A notebook is its list of cells. -/
def Notebook := List Cell

open PyExpr PyStmt in
/-- Transcription of `publish_keras_model_example.ipynb`: cells in order. -/
def kerasNotebook : Notebook := [
  Cell.markdown,  -- DLHub: A Data and Learning Hub for Science
  Cell.markdown,  -- Publishing a Keras model
  Cell.markdown,  -- Make a model using the MNIST dataset
  Cell.code [
    pyFrom "__future__" ["print_function"],
    pyImport "keras" none,
    pyFrom "keras.datasets" ["mnist"],
    pyFrom "keras.models" ["Sequential"],
    pyFrom "keras.layers" ["Dense", "Dropout", "Flatten"],
    pyFrom "keras.layers" ["Conv2D", "MaxPooling2D"],
    pyFrom "keras" ["backend"],  -- from keras import backend as K
    assign "batch_size" (intL 128),
    assign "num_classes" (intL 10),
    assign "epochs" (intL 4),
    assign "train_size" (intL 100),
    assignTuple "img_rows" "img_cols" (intL 28) (intL 28),
    assignPairs "x_train" "y_train" "x_test" "y_test"
      (call (attr (var "mnist") "load_data") []),
    ifElse (binop "==" (call (attr (var "K") "image_data_format") [])
        (strL "channels_first"))
      [assign "x_train" (call (attr (var "x_train") "reshape")
          [subscript (attr (var "x_train") "shape") (intL 0), intL 1,
           var "img_rows", var "img_cols"]),
       assign "x_test" (call (attr (var "x_test") "reshape")
          [subscript (attr (var "x_test") "shape") (intL 0), intL 1,
           var "img_rows", var "img_cols"]),
       assign "input_shape" (tupleL [intL 1, var "img_rows", var "img_cols"])]
      [assign "x_train" (call (attr (var "x_train") "reshape")
          [subscript (attr (var "x_train") "shape") (intL 0),
           var "img_rows", var "img_cols", intL 1]),
       assign "x_test" (call (attr (var "x_test") "reshape")
          [subscript (attr (var "x_test") "shape") (intL 0),
           var "img_rows", var "img_cols", intL 1]),
       assign "input_shape" (tupleL [var "img_rows", var "img_cols", intL 1])],
    assign "x_train" (call (attr (var "x_train") "astype") [strL "float32"]),
    assign "x_test" (call (attr (var "x_test") "astype") [strL "float32"]),
    augDiv "x_train" (intL 255),
    augDiv "x_test" (intL 255),
    exprStmt (call (var "print")
      [strL "x_train shape:", attr (var "x_train") "shape"]),
    exprStmt (call (var "print")
      [subscript (attr (var "x_train") "shape") (intL 0), strL "train samples"]),
    exprStmt (call (var "print")
      [subscript (attr (var "x_test") "shape") (intL 0), strL "test samples"]),
    assign "y_train" (call (attr (attr (var "keras") "utils") "to_categorical")
      [var "y_train", var "num_classes"]),
    assign "y_test" (call (attr (attr (var "keras") "utils") "to_categorical")
      [var "y_test", var "num_classes"]),
    assign "model" (call (var "Sequential") []),
    exprStmt (call (attr (var "model") "add")
      [call (var "Conv2D") [intL 32, kw "kernel_size" (tupleL [intL 3, intL 3]),
        kw "activation" (strL "relu"), kw "input_shape" (var "input_shape")]]),
    exprStmt (call (attr (var "model") "add")
      [call (var "Conv2D") [intL 64, tupleL [intL 3, intL 3],
        kw "activation" (strL "relu")]]),
    exprStmt (call (attr (var "model") "add")
      [call (var "MaxPooling2D") [kw "pool_size" (tupleL [intL 2, intL 2])]]),
    exprStmt (call (attr (var "model") "add") [call (var "Dropout") [numL "0.25"]]),
    exprStmt (call (attr (var "model") "add") [call (var "Flatten") []]),
    exprStmt (call (attr (var "model") "add")
      [call (var "Dense") [intL 128, kw "activation" (strL "relu")]]),
    exprStmt (call (attr (var "model") "add") [call (var "Dropout") [numL "0.5"]]),
    exprStmt (call (attr (var "model") "add")
      [call (var "Dense") [var "num_classes", kw "activation" (strL "softmax")]]),
    exprStmt (call (attr (var "model") "compile")
      [kw "loss" (attr (attr (var "keras") "losses") "categorical_crossentropy"),
       kw "optimizer" (call (attr (attr (var "keras") "optimizers") "Adadelta") []),
       kw "metrics" (listL [strL "accuracy"])]),
    exprStmt (call (attr (var "model") "fit")
      [sliceTo (var "x_train") (var "train_size"),
       sliceTo (var "y_train") (var "train_size"),
       kw "batch_size" (var "batch_size"),
       kw "epochs" (var "epochs"),
       kw "verbose" (intL 1),
       kw "validation_data" (tupleL [var "x_test", var "y_test"])]),
    assign "score" (call (attr (var "model") "evaluate")
      [var "x_test", var "y_test", kw "verbose" (intL 0)]),
    exprStmt (call (var "print")
      [strL "Test loss:", subscript (var "score") (intL 0)]),
    exprStmt (call (var "print")
      [strL "Test accuracy:", subscript (var "score") (intL 1)]),
    exprStmt (call (attr (var "model") "save") [strL "keras_model.hd5"])],
  Cell.markdown,  -- Describe the model
  Cell.code [
    pyFrom "dlhub_sdk.models.servables.keras" ["KerasModel"],
    assign "model_info" (call (attr (var "KerasModel") "create_model")
      [strL "keras_model.hd5",
       call (var "list") [call (var "map")
         [var "str", call (var "range") [intL 10]]]])],
  Cell.markdown,  -- Now we use the SDK to append other metadata
  Cell.code [
    exprStmt (call (attr (var "model_info") "set_title")
      [strL "MNIST Digit Classifier"]),
    exprStmt (call (attr (var "model_info") "set_name")
      [strL "mnist_tiny_example"]),
    exprStmt (call (attr (var "model_info") "set_domains")
      [listL [strL "general", strL "digit recognition"]])],
  Cell.markdown,  -- Now we describe the outputs in more detail
  Cell.code [
    assignItem (subscript (subscript (subscript (subscript (subscript
        (var "model_info") (strL "servable")) (strL "methods")) (strL "run"))
        (strL "output")) (strL "description"))
      (strL "Probabilities of being 0-9"),
    assignItem (subscript (subscript (subscript (subscript (subscript
        (var "model_info") (strL "servable")) (strL "methods")) (strL "run"))
        (strL "input")) (strL "description"))
      (strL "Image of a digit")],
  Cell.markdown,  -- Print out the result
  Cell.code [
    pyImport "json" none,
    exprStmt (call (var "print") [strL "\n--> Model Information <--"]),
    exprStmt (call (var "print")
      [call (attr (var "json") "dumps")
        [call (attr (var "model_info") "to_dict") [], kw "indent" (intL 2)]])],
  Cell.markdown,  -- Publishing the model to DLHub
  Cell.code [
    pyImport "dlhub_sdk" none,
    assign "dl" (call (attr (var "dlhub_sdk") "DLHubClient") []),
    assign "task_id" (call (attr (var "dl") "publish_servable")
      [var "model_info"]),
    exprStmt (call (var "print") [var "task_id"])]]

open PyExpr PyStmt in
/-- Transcription of the scikit-learn publishing notebook: cells in order. -/
def sklearnNotebook : Notebook := [
  Cell.markdown,  -- DLHub: A Data and Learning Hub for Science
  Cell.markdown,  -- Publishing a Scikit-learn model
  Cell.markdown,  -- Describing the training dataset
  Cell.code [
    pyFrom "dlhub_sdk.models.datasets" ["TabularDataset"],
    pyImport "pandas" (some "pd"),
    pyImport "json" none,
    assign "data" (call (attr (var "pd") "read_csv")
      [strL "scikit_learn_model/iris.csv", kw "header" (intL 1)]),
    assign "dataset_info" (call (attr (var "TabularDataset") "create_model")
      [strL "scikit_learn_model/iris.csv",
       kw "read_kwargs" (call (var "dict") [kw "header" (intL 1)])])],
  Cell.markdown,  -- Now we can append other metadata to the dataset model
  Cell.code [
    exprStmt (call (attr (var "dataset_info") "add_alternate_identifier")
      [kw "identifier" (strL "https://archive.ics.uci.edu/ml/datasets/Iris"),
       kw "identifier_type" (strL "URL")]),
    exprStmt (call (attr (var "dataset_info") "add_related_identifier")
      [kw "identifier" (strL "10.1111/j.1469-1809.1936.tb02137.x"),
       kw "identifier_type" (strL "DOI"),
       kw "relation_type" (strL "IsDescribedBy")]),
    exprStmt (call (attr (var "dataset_info") "set_domains")
      [listL [strL "biology"]]),
    exprStmt (call (attr (var "dataset_info") "annotate_column")
      [strL "sepal_length", kw "description" (strL "Length of sepal"),
       kw "units" (strL "cm")]),
    exprStmt (call (attr (var "dataset_info") "annotate_column")
      [strL "sepal_width", kw "description" (strL "Width of sepal"),
       kw "units" (strL "cm")]),
    exprStmt (call (attr (var "dataset_info") "annotate_column")
      [strL "petal_length", kw "description" (strL "Length of petal"),
       kw "units" (strL "cm")]),
    exprStmt (call (attr (var "dataset_info") "annotate_column")
      [strL "petal_width", kw "description" (strL "Width of petal"),
       kw "units" (strL "cm")]),
    exprStmt (call (attr (var "dataset_info") "annotate_column")
      [strL "species", kw "description" (strL "Species"),
       kw "data_type" (strL "string")]),
    exprStmt (call (attr (var "dataset_info") "mark_inputs")
      [sliceUpToLast (attr (var "data") "columns")]),
    exprStmt (call (attr (var "dataset_info") "mark_labels")
      [sliceLastOnly (attr (var "data") "columns")]),
    exprStmt (call (attr (var "dataset_info") "set_title") [strL "Iris Dataset"]),
    exprStmt (call (attr (var "dataset_info") "set_name") [strL "iris_dataset"]),
    exprStmt (call (attr (var "dataset_info") "set_authors")
      [listL [strL "Marshall, R.A."]])],
  Cell.markdown,  -- After running this script...
  Cell.code [
    exprStmt (call (var "print")
      [call (attr (var "json") "dumps")
        [call (attr (var "dataset_info") "to_dict") [], kw "indent" (intL 2)]])],
  Cell.markdown,  -- Make a model using the Iris dataset
  Cell.code [
    pyFrom "sklearn.svm" ["SVC"],
    pyImport "pickle" (some "pkl"),
    pyImport "pandas" (some "pd"),
    assign "data" (call (attr (var "pd") "read_csv")
      [strL "scikit_learn_model/iris.csv", kw "header" (intL 1)]),
    exprStmt (call (var "print")
      [call (attr (strL "Loaded {} rows with {} columns:") "format")
        [call (var "len") [var "data"],
         call (var "len") [attr (var "data") "columns"]],
       call (attr (attr (var "data") "columns") "tolist") []]),
    assign "model" (call (var "SVC")
      [kw "kernel" (strL "linear"), kw "C" (intL 1),
       kw "probability" (var "True")]),
    exprStmt (call (attr (var "model") "fit")
      [sliceColsUpToLast (attr (var "data") "values"),
       sliceLastColVals (attr (var "data") "values")]),
    exprStmt (call (var "print") [strL "Trained a SVC model"]),
    withOpen (strL "scikit_learn_model/model.pkl") (strL "wb") "fp"
      [exprStmt (call (attr (var "pkl") "dump") [var "model", var "fp"])],
    exprStmt (call (var "print") [strL "Saved model to disk"])],
  Cell.markdown,  -- Describe the model
  Cell.code [
    pyFrom "dlhub_sdk.models.servables.sklearn" ["ScikitLearnModel"],
    assign "model_info" (call (attr (var "ScikitLearnModel") "create_model")
      [strL "scikit_learn_model/model.pkl",
       kw "n_input_columns"
         (binop "-" (call (var "len") [attr (var "data") "columns"]) (intL 1)),
       kw "classes"
         (call (attr (subscript (var "data") (strL "species")) "unique") [])])],
  Cell.markdown,  -- Now we use the SDK to append other metadata
  Cell.code [
    exprStmt (call (attr (var "model_info") "set_title")
      [strL "Example Scikit-Learn Model"]),
    exprStmt (call (attr (var "model_info") "set_name") [strL "iris_svm"]),
    exprStmt (call (attr (var "model_info") "set_domains")
      [listL [strL "biology"]])],
  Cell.markdown,  -- Now the metadata is created we can use it to publish
  Cell.code [
    exprStmt (call (var "print")
      [call (attr (var "json") "dumps")
        [call (attr (var "model_info") "to_dict") [], kw "indent" (intL 2)]])],
  Cell.markdown,  -- Publishing the model to DLHub
  Cell.code [
    pyImport "dlhub_sdk" none,
    assign "dl" (call (attr (var "dlhub_sdk") "DLHubClient") []),
    assign "task_id" (call (attr (var "dl") "publish_servable")
      [var "model_info"]),
    exprStmt (call (var "print") [var "task_id"])],
  Cell.code []]

/-- The repository: its two notebooks, Keras first. -/
def notebooks : List Notebook := [kerasNotebook, sklearnNotebook]

/-! ### Queries over the transcription -/

mutual

/-- A statement together with the statements nested inside it (bodies of `if`,
`with`, `try`, `class`), in source order. -/
def stmtFlatten : PyStmt → List PyStmt
  | .ifElse c t e => .ifElse c t e :: (stmtsFlatten t ++ stmtsFlatten e)
  | .withOpen f m b body => .withOpen f m b body :: stmtsFlatten body
  | .tryExcept b h => .tryExcept b h :: (stmtsFlatten b ++ stmtsFlatten h)
  | .classDef n body => .classDef n body :: stmtsFlatten body
  | s => [s]

/-- `stmtFlatten` over a list of statements. -/
def stmtsFlatten : List PyStmt → List PyStmt
  | [] => []
  | s :: ss => stmtFlatten s ++ stmtsFlatten ss

end

/-- The statements of a code cell; markdown cells have none. -/
def codeStmtsOf : Cell → List PyStmt
  | .markdown => []
  | .code ss => ss

/-- All statements of a notebook's code cells in source order, with nested
statements flattened in. -/
def notebookStmts (nb : Notebook) : List PyStmt :=
  stmtsFlatten (nb.foldr (fun c acc => codeStmtsOf c ++ acc) [])

/-- The receiver name of a method call: the variable name when the receiver is
a plain variable, `""` otherwise. -/
def recvName : PyExpr → String
  | .var r => r
  | _ => ""

mutual

/-- All `(receiver, method)` pairs of method calls `recv.m(...)` occurring
anywhere in an expression, in source order. -/
def exprMethodCalls : PyExpr → List (String × String)
  | .var _ | .strL _ | .intL _ | .numL _ => []
  | .listL es | .tupleL es => exprsMethodCalls es
  | .attr o _ => exprMethodCalls o
  | .call (.attr o m) args =>
      (recvName o, m) :: (exprMethodCalls o ++ exprsMethodCalls args)
  | .call f args => exprMethodCalls f ++ exprsMethodCalls args
  | .kw _ v => exprMethodCalls v
  | .subscript o i => exprMethodCalls o ++ exprMethodCalls i
  | .sliceTo o h => exprMethodCalls o ++ exprMethodCalls h
  | .sliceUpToLast o | .sliceLastOnly o
  | .sliceColsUpToLast o | .sliceLastColVals o => exprMethodCalls o
  | .binop _ a b => exprMethodCalls a ++ exprMethodCalls b

/-- `exprMethodCalls` over a list of expressions. -/
def exprsMethodCalls : List PyExpr → List (String × String)
  | [] => []
  | e :: es => exprMethodCalls e ++ exprsMethodCalls es

end

/-- The expressions occurring directly in a statement (nested statements are
reached through `stmtFlatten`, not here). -/
def stmtExprs : PyStmt → List PyExpr
  | .pyImport _ _ => []
  | .pyFrom _ _ => []
  | .assign _ v => [v]
  | .assignTuple _ _ v1 v2 => [v1, v2]
  | .assignPairs _ _ _ _ v => [v]
  | .assignItem t v => [t, v]
  | .augDiv _ v => [v]
  | .exprStmt e => [e]
  | .ifElse c _ _ => [c]
  | .withOpen f m _ _ => [f, m]
  | .tryExcept _ _ => []
  | .classDef _ _ => []

/-- All `(receiver, method)` pairs of method calls in a statement. -/
def stmtMethodCalls (s : PyStmt) : List (String × String) :=
  exprsMethodCalls (stmtExprs s)

/-- All `(receiver, method)` pairs of method calls in a notebook. -/
def nbMethodCalls (nb : Notebook) : List (String × String) :=
  (notebookStmts nb).foldr (fun s acc => stmtMethodCalls s ++ acc) []

mutual

/-- Whether the variable `n` is read anywhere in an expression. -/
def exprMentionsVar (n : String) : PyExpr → Bool
  | .var m => m == n
  | .strL _ | .intL _ | .numL _ => false
  | .listL es | .tupleL es => exprsMentionVar n es
  | .attr o _ => exprMentionsVar n o
  | .call f args => exprMentionsVar n f || exprsMentionVar n args
  | .kw _ v => exprMentionsVar n v
  | .subscript o i => exprMentionsVar n o || exprMentionsVar n i
  | .sliceTo o h => exprMentionsVar n o || exprMentionsVar n h
  | .sliceUpToLast o | .sliceLastOnly o
  | .sliceColsUpToLast o | .sliceLastColVals o => exprMentionsVar n o
  | .binop _ a b => exprMentionsVar n a || exprMentionsVar n b

/-- `exprMentionsVar` over a list of expressions. -/
def exprsMentionVar (n : String) : List PyExpr → Bool
  | [] => false
  | e :: es => exprMentionsVar n e || exprsMentionVar n es

end

/-- Whether the variable `n` is read in the expressions of a statement. -/
def stmtMentionsVar (n : String) (s : PyStmt) : Bool :=
  exprsMentionVar n (stmtExprs s)

/-- The statements of the last code cell of a notebook that has any. -/
def lastCodeStmts (nb : Notebook) : List PyStmt :=
  nb.foldl (fun acc c => match codeStmtsOf c with
    | [] => acc
    | ss => ss) []

/-- `idxLt i j` holds when both indices were found and `i` precedes `j`. -/
def idxLt : Option Nat → Option Nat → Bool
  | some i, some j => i < j
  | _, _ => false

/-! ### Claim-specific predicates -/

/-- A statement containing a `publish_servable` method call. -/
def isPublishStmt (s : PyStmt) : Bool :=
  (stmtMethodCalls s).any (fun rm => rm.2 == "publish_servable")

/-- The assignment binding `model_info` to a `create_model` class-method
call. -/
def isModelInfoCreate : PyStmt → Bool
  | .assign "model_info" (.call (.attr (.var _) "create_model") _) => true
  | _ => false

/-- The claim C1 shape: the notebook's single `publish_servable` call sits in
the final (nonempty) code cell, takes `model_info` — created earlier by a
`create_model` call — as argument, binds its returned task id, and that task
id is consumed only by the final `print`. -/
def publishIsFinalStep (nb : Notebook) : Bool :=
  let ss := notebookStmts nb
  ((nbMethodCalls nb).countP (fun rm => rm.2 == "publish_servable") == 1)
  && (match lastCodeStmts nb with
      | [.pyImport "dlhub_sdk" none,
         .assign "dl" (.call (.attr (.var "dlhub_sdk") "DLHubClient") []),
         .assign "task_id" (.call (.attr (.var "dl") "publish_servable")
           [.var "model_info"]),
         .exprStmt (.call (.var "print") [.var "task_id"])] => true
      | _ => false)
  && (ss.countP (stmtMentionsVar "task_id") == 1)
  && idxLt (ss.findIdx? isModelInfoCreate) (ss.findIdx? isPublishStmt)

/-- The `model.fit(...)` training statement. -/
def isModelFit : PyStmt → Bool
  | .exprStmt (.call (.attr (.var "model") "fit") _) => true
  | _ => false

/-- The base variable of a chain of subscripts and attribute accesses. -/
def exprBaseVar : PyExpr → String
  | .var n => n
  | .subscript o _ => exprBaseVar o
  | .attr o _ => exprBaseVar o
  | _ => ""

/-- A statement enriching the `model_info` descriptor: a
`set_title`/`set_name`/`set_domains` call on it, or a subscript assignment
into it. -/
def isModelInfoEnrich : PyStmt → Bool
  | .exprStmt (.call (.attr (.var "model_info") m) _) =>
      ["set_title", "set_name", "set_domains"].contains m
  | .assignItem t _ => exprBaseVar t == "model_info"
  | _ => false

/-- The claim C2 shape: training precedes the `create_model` binding of
`model_info`, which precedes its enrichment, and every `publish_servable`
call comes after both the `create_model` binding and every enrichment of
`model_info`. -/
def pipelineOrdered (nb : Notebook) : Bool :=
  let ss := notebookStmts nb
  idxLt (ss.findIdx? isModelFit) (ss.findIdx? isModelInfoCreate)
  && idxLt (ss.findIdx? isModelInfoCreate) (ss.findIdx? isModelInfoEnrich)
  && (ss.enum.all fun p =>
        !(isPublishStmt p.2) ||
          (ss.enum.all fun q =>
            !(isModelInfoEnrich q.2 || isModelInfoCreate q.2)
              || decide (q.1 < p.1)))

/-- The SDK methods the spec lists as the only ones invoked. -/
def claimedSdkMethods : List String :=
  ["create_model", "set_title", "set_name", "set_domains", "annotate_column",
   "mark_inputs", "mark_labels", "to_dict", "publish_servable"]

/-- The descriptor and client objects of the notebooks. -/
def sdkObjects : List String := ["model_info", "dataset_info", "dl"]

/-- The SDK classes on which class methods are called. -/
def sdkClasses : List String := ["KerasModel", "ScikitLearnModel", "TabularDataset"]

/-- Every SDK method name invoked on a descriptor or client object (or on an
SDK class) across both notebooks. -/
def sdkMethodsUsed : List String :=
  (nbMethodCalls kerasNotebook ++ nbMethodCalls sklearnNotebook).filterMap
    (fun rm =>
      if sdkObjects.contains rm.1 || sdkClasses.contains rm.1 then some rm.2
      else none)

/-- `hasStmt nb p`: some statement of the notebook satisfies `p`. -/
def hasStmt (nb : Notebook) (p : PyStmt → Bool) : Bool :=
  (notebookStmts nb).any p

/-- `model = Sequential()`. -/
def isSequentialCreate : PyStmt → Bool
  | .assign "model" (.call (.var "Sequential") []) => true
  | _ => false

/-- `model.add(Conv2D(...))`. -/
def isConv2DAdd : PyStmt → Bool
  | .exprStmt (.call (.attr (.var "model") "add") [.call (.var "Conv2D") _]) =>
      true
  | _ => false

/-- `model = SVC(...)`. -/
def isSVCCreate : PyStmt → Bool
  | .assign "model" (.call (.var "SVC") _) => true
  | _ => false

/-- A statement containing a method call named `m`. -/
def callsMethod (m : String) (s : PyStmt) : Bool :=
  (stmtMethodCalls s).any (fun rm => rm.2 == m)

/-- A statement describing servable or dataset inputs/outputs: a subscript
assignment into a `description` field, or a `mark_inputs`/`mark_labels`
call. -/
def isIODescription (s : PyStmt) : Bool :=
  match s with
  | .assignItem (.subscript _ (.strL "description")) _ => true
  | _ => callsMethod "mark_inputs" s || callsMethod "mark_labels" s

/-- The claim C4 per-notebook shape: train a toy model, build a descriptor via
`create_model`, enrich it with a title, domains and I/O descriptions, and
publish it. -/
def notebookDemoShape (nb : Notebook) : Bool :=
  hasStmt nb isModelFit
  && hasStmt nb (callsMethod "create_model")
  && hasStmt nb (callsMethod "set_title")
  && hasStmt nb (callsMethod "set_domains")
  && hasStmt nb isIODescription
  && hasStmt nb isPublishStmt

/-- The local file accesses of a statement, as `(direction, path)` pairs:
`pd.read_csv`, `create_model` (which reads the artifact it describes),
`model.save`, and `with open(..., "wb")`. -/
def stmtFileEvents : PyStmt → List (String × String)
  | .assign _ (.call (.attr (.var "pd") "read_csv") (.strL p :: _)) =>
      [("read", p)]
  | .assign _ (.call (.attr (.var _) "create_model") (.strL p :: _)) =>
      [("read", p)]
  | .exprStmt (.call (.attr (.var "model") "save") [.strL p]) => [("write", p)]
  | .withOpen (.strL p) (.strL "wb") _ _ => [("write", p)]
  | _ => []

/-- All statements of the two notebooks. -/
def allNotebookStmts : List PyStmt :=
  notebookStmts kerasNotebook ++ notebookStmts sklearnNotebook

/-- All local file accesses of the two notebooks. -/
def allFileEvents : List (String × String) :=
  allNotebookStmts.foldr (fun s acc => stmtFileEvents s ++ acc) []

/-- The model artifact files named by the spec: the HDF5 file of the Keras
model and the pickle file of the scikit-learn model. -/
def modelArtifactPaths : List String :=
  ["keras_model.hd5", "scikit_learn_model/model.pkl"]

/-- `(x_train, y_train), (x_test, y_test) = mnist.load_data()`. -/
def isMnistLoad : PyStmt → Bool
  | .assignPairs _ _ _ _ (.call (.attr (.var "mnist") "load_data") []) => true
  | _ => false

/-- A `try`/`except` statement. -/
def isTryExceptStmt : PyStmt → Bool
  | .tryExcept _ _ => true
  | _ => false

/-- A conditional statement. -/
def isIfStmt : PyStmt → Bool
  | .ifElse _ _ _ => true
  | _ => false

/-- The Keras notebook's `K.image_data_format() == 'channels_first'`
conditional. -/
def isDataFormatBranch : PyStmt → Bool
  | .ifElse (.binop "==" (.call (.attr (.var "K") "image_data_format") [])
      (.strL "channels_first")) _ _ => true
  | _ => false

/-- `from m import ... n ...` occurs in the notebook. -/
def importsFrom (nb : Notebook) (m n : String) : Bool :=
  (notebookStmts nb).any fun s => match s with
    | .pyFrom m2 ns => m2 == m && ns.contains n
    | _ => false

/-- The notebook does `import dlhub_sdk` and then reaches `DLHubClient` as an
attribute of that module. -/
def usesDlhubClientViaModule (nb : Notebook) : Bool :=
  ((notebookStmts nb).any fun s => match s with
    | .pyImport "dlhub_sdk" none => true
    | _ => false)
  && ((notebookStmts nb).any fun s => match s with
    | .assign _ (.call (.attr (.var "dlhub_sdk") "DLHubClient") []) => true
    | _ => false)

/-- The four non-trivial SDK types the notebooks use. -/
def sdkTypeNames : List String :=
  ["KerasModel", "ScikitLearnModel", "TabularDataset", "DLHubClient"]

/-- Whether the notebook itself binds the name `n` (by a class definition or
any assignment form). -/
def definesName (nb : Notebook) (n : String) : Bool :=
  (notebookStmts nb).any fun s => match s with
    | .classDef m _ => m == n
    | .assign m _ => m == n
    | .assignTuple a b _ _ => a == n || b == n
    | .assignPairs a b c d _ => a == n || b == n || c == n || d == n
    | .withOpen _ _ b _ => b == n
    | _ => false

/-- `model.fit(x_train[:train_size], y_train[:train_size], ...)`: the fit call
receives the sliced training data and labels. -/
def kerasFitTruncated : Bool :=
  hasStmt kerasNotebook fun s => match s with
    | .exprStmt (.call (.attr (.var "model") "fit")
        (.sliceTo (.var "x_train") (.var "train_size") ::
         .sliceTo (.var "y_train") (.var "train_size") :: _)) => true
    | _ => false

/-- `train_size = 100`. -/
def kerasTrainSizeIs100 : Bool :=
  hasStmt kerasNotebook fun s => match s with
    | .assign "train_size" (.intL 100) => true
    | _ => false

/-- `score = model.evaluate(x_test, y_test, verbose=0)`: evaluation receives
the unsliced test arrays. -/
def kerasEvalFullTest : Bool :=
  hasStmt kerasNotebook fun s => match s with
    | .assign "score" (.call (.attr (.var "model") "evaluate")
        [.var "x_test", .var "y_test", .kw "verbose" (.intL 0)]) => true
    | _ => false

/-! ### Semantics of the slicing and reshape operations the claims rely on -/

/-- Semantics of Python `xs[:-1]` on a column index: every column except the
last (the argument of `dataset_info.mark_inputs`). -/
def pySliceUpToLast {α : Type} (xs : List α) : List α := xs.dropLast

/-- Semantics of Python `xs[-1:]` on a column index: the slice holding the
last column (the argument of `dataset_info.mark_labels`). -/
def pySliceLastOnly {α : Type} (xs : List α) : List α :=
  xs.drop (xs.length - 1)

/-- The column labels of `scikit_learn_model/iris.csv` as annotated in the
notebook. -/
def irisColumns : List String :=
  ["sepal_length", "sepal_width", "petal_length", "petal_width", "species"]

/-- `img_rows` of the Keras notebook. -/
def imgRows : Nat := 28

/-- `img_cols` of the Keras notebook. -/
def imgCols : Nat := 28

/-- The shape of the MNIST image arrays as loaded: `(n, img_rows, img_cols)`
for `n` samples. -/
def mnistImagesShape (n : Nat) : List Nat := [n, imgRows, imgCols]

/-- The shape the Keras notebook reshapes an `n`-sample image array to:
`(n, 1, img_rows, img_cols)` in the `channels_first` branch, else
`(n, img_rows, img_cols, 1)`. -/
def reshapedImagesShape (channelsFirst : Bool) (n : Nat) : List Nat :=
  if channelsFirst then [n, 1, imgRows, imgCols]
  else [n, imgRows, imgCols, 1]

/-- The `input_shape` the Keras notebook sets in each branch. -/
def kerasInputShape (channelsFirst : Bool) : List Nat :=
  if channelsFirst then [1, imgRows, imgCols]
  else [imgRows, imgCols, 1]

/-- The `mark_inputs`/`mark_labels` statements of the scikit-learn notebook:
inputs are `data.columns[:-1]`, labels are `data.columns[-1:]`. -/
def sklearnMarksColumns : Bool :=
  (hasStmt sklearnNotebook fun s => match s with
    | .exprStmt (.call (.attr (.var "dataset_info") "mark_inputs")
        [.sliceUpToLast (.attr (.var "data") "columns")]) => true
    | _ => false)
  && (hasStmt sklearnNotebook fun s => match s with
    | .exprStmt (.call (.attr (.var "dataset_info") "mark_labels")
        [.sliceLastOnly (.attr (.var "data") "columns")]) => true
    | _ => false)

/-! ### Claims -/

/-- C1: in each of the two notebooks the final nonempty code cell is the
single `publish_servable` call on the client, applied to the `model_info`
descriptor built earlier, its returned task id is bound and printed, and no
other statement consumes that task id. -/
theorem publish_final_step :
    publishIsFinalStep kerasNotebook = true ∧
    publishIsFinalStep sklearnNotebook = true := by
  constructor <;> decide

/-- C2: in each notebook, training (`model.fit`) precedes the `create_model`
binding of the published descriptor `model_info`, which precedes its
enrichment, and every `publish_servable` call comes after both the binding
and every enrichment of `model_info`. -/
theorem pipeline_stage_order :
    pipelineOrdered kerasNotebook = true ∧
    pipelineOrdered sklearnNotebook = true := by
  constructor <;> decide

/-- C3 counterexample: the scikit-learn notebook calls
`add_alternate_identifier` on the `dataset_info` descriptor, an SDK method
outside the spec's list of the only SDK operations invoked. -/
theorem sdk_methods_beyond_claimed :
    sdkMethodsUsed.contains "add_alternate_identifier" = true ∧
    claimedSdkMethods.contains "add_alternate_identifier" = false := by
  constructor <;> decide

/-- C3 amended: the SDK methods invoked on the descriptor and client objects
are exactly drawn from the spec's list extended with
`add_alternate_identifier`, `add_related_identifier` and `set_authors`. -/
theorem sdk_methods_within_amended :
    sdkMethodsUsed.all (fun m =>
      (claimedSdkMethods ++
        ["add_alternate_identifier", "add_related_identifier",
         "set_authors"]).contains m) = true := by
  decide

/-- C4: the material is exactly two notebooks; the first builds a Keras
`Sequential` model with `Conv2D` layers and the second a scikit-learn `SVC`;
each trains a toy model, builds a descriptor via `create_model`, enriches it
with a title, domains and I/O descriptions, and publishes it. -/
theorem two_notebooks_demo_shape :
    notebooks.length = 2 ∧
    hasStmt kerasNotebook isSequentialCreate = true ∧
    hasStmt kerasNotebook isConv2DAdd = true ∧
    hasStmt sklearnNotebook isSVCCreate = true ∧
    notebookDemoShape kerasNotebook = true ∧
    notebookDemoShape sklearnNotebook = true := by
  refine ⟨rfl, ?_, ?_, ?_, ?_, ?_⟩ <;> decide

/-- C5 counterexample: the scikit-learn notebook reads the local file
`scikit_learn_model/iris.csv` with `pd.read_csv`, and that file is neither
the HDF5 nor the pickle model artifact (nor a metadata dictionary), so the
model artifact and the metadata dictionary are not the only local data
objects accessed. -/
theorem iris_csv_read_not_artifact :
    allFileEvents.contains ("read", "scikit_learn_model/iris.csv") = true ∧
    modelArtifactPaths.contains "scikit_learn_model/iris.csv" = false := by
  constructor <;> decide

/-- C5 amended: the local data manipulated by the notebooks are the model
artifacts (`keras_model.hd5`, `scikit_learn_model/model.pkl`), the metadata
dictionaries assembled by SDK calls, and the training data (the Iris CSV read
via pandas and the MNIST arrays loaded via `mnist.load_data`); the only files
written are the two model artifacts. -/
theorem local_data_files_amended :
    allFileEvents.all (fun e =>
      ["keras_model.hd5", "scikit_learn_model/model.pkl",
       "scikit_learn_model/iris.csv"].contains e.2) = true ∧
    allFileEvents.all (fun e =>
      e.1 != "write" || modelArtifactPaths.contains e.2) = true ∧
    hasStmt kerasNotebook isMnistLoad = true := by
  refine ⟨?_, ?_, ?_⟩ <;> decide

/-- C6: no statement of either notebook is a `try`/`except`, and the only
conditional in the notebooks is the Keras `image_data_format` branch, which
inspects a backend configuration rather than an error; every exception
propagates uncaught. -/
theorem no_error_handling :
    allNotebookStmts.all (fun s => !isTryExceptStmt s) = true ∧
    allNotebookStmts.countP isIfStmt = 1 ∧
    allNotebookStmts.all (fun s => !isIfStmt s || isDataFormatBranch s)
      = true := by
  refine ⟨?_, ?_, ?_⟩ <;> decide

/-- C7: `KerasModel`, `TabularDataset` and `ScikitLearnModel` are imported
from `dlhub_sdk` modules, `DLHubClient` is reached as an attribute of the
imported `dlhub_sdk` module, and no notebook statement defines or rebinds any
of these four names. -/
theorem sdk_types_external :
    importsFrom kerasNotebook "dlhub_sdk.models.servables.keras" "KerasModel"
      = true ∧
    importsFrom sklearnNotebook "dlhub_sdk.models.datasets" "TabularDataset"
      = true ∧
    importsFrom sklearnNotebook "dlhub_sdk.models.servables.sklearn"
      "ScikitLearnModel" = true ∧
    usesDlhubClientViaModule kerasNotebook = true ∧
    usesDlhubClientViaModule sklearnNotebook = true ∧
    notebooks.all (fun nb => sdkTypeNames.all (fun n => !(definesName nb n)))
      = true := by
  refine ⟨?_, ?_, ?_, ?_, ?_, ?_⟩ <;> decide

/-- C8: the scikit-learn notebook marks `data.columns[:-1]` as inputs and
`data.columns[-1:]` as labels; for any nonempty column list the two slices
concatenate back to the whole column list (so together they cover every
column, the labels being exactly the last one), and — since a loaded
dataframe's column labels are pairwise distinct — they are disjoint. -/
theorem mark_inputs_labels_partition (cols : List String) (h : cols ≠ []) :
    sklearnMarksColumns = true ∧
    pySliceUpToLast cols ++ pySliceLastOnly cols = cols ∧
    (pySliceLastOnly cols).length = 1 ∧
    (cols.Nodup →
      List.Disjoint (pySliceUpToLast cols) (pySliceLastOnly cols)) := by
  have hl : 1 ≤ cols.length := List.length_pos.mpr h
  refine ⟨by decide, ?_, ?_, ?_⟩
  · rw [pySliceUpToLast, pySliceLastOnly, List.dropLast_eq_take]
    exact List.take_append_drop _ _
  · rw [pySliceLastOnly, List.length_drop]
    omega
  · intro hnd
    rw [pySliceUpToLast, pySliceLastOnly, List.dropLast_eq_take]
    exact List.disjoint_take_drop hnd (le_refl _)

/-- C8 witness: the partition at the Iris column list. -/
theorem mark_inputs_labels_partition_witness :
    sklearnMarksColumns = true ∧
    pySliceUpToLast irisColumns ++ pySliceLastOnly irisColumns
      = irisColumns ∧
    (pySliceLastOnly irisColumns).length = 1 ∧
    (irisColumns.Nodup →
      List.Disjoint (pySliceUpToLast irisColumns)
        (pySliceLastOnly irisColumns)) :=
  mark_inputs_labels_partition irisColumns (by decide)

/-- C9: the Keras notebook branches on `image_data_format`; in both branches
and for any sample count `n`, the reshape keeps `n` samples, each sample has
`1 * 28 * 28 = 784` elements, `input_shape` equals the per-sample shape of
the reshaped array, and the reshape preserves the total element count of the
loaded `(n, 28, 28)` array. -/
theorem reshape_branch_invariants (channelsFirst : Bool) (n : Nat) :
    hasStmt kerasNotebook isDataFormatBranch = true ∧
    (reshapedImagesShape channelsFirst n).headI = n ∧
    (reshapedImagesShape channelsFirst n).tail.prod = 784 ∧
    kerasInputShape channelsFirst = (reshapedImagesShape channelsFirst n).tail ∧
    (reshapedImagesShape channelsFirst n).prod = (mnistImagesShape n).prod := by
  refine ⟨by decide, ?_, ?_, ?_, ?_⟩ <;>
    cases channelsFirst <;>
      simp [reshapedImagesShape, kerasInputShape, mnistImagesShape,
        imgRows, imgCols]

/-- C10: the Keras notebook's single `model.fit` call trains on
`x_train[:train_size]` and `y_train[:train_size]` with `train_size = 100`,
while `model.evaluate` receives the full `x_test` and `y_test`. -/
theorem fit_truncated_eval_full :
    (notebookStmts kerasNotebook).countP isModelFit = 1 ∧
    kerasFitTruncated = true ∧
    kerasTrainSizeIs100 = true ∧
    kerasEvalFullTest = true := by
  refine ⟨?_, ?_, ?_, ?_⟩ <;> decide
